import Mathlib

/-!
Shallow embedding of the NeuroHome ESP32 firmware
(`src/edge/firmware_esp32/src/main.cpp`) and proofs about its
connectivity/telemetry/command loop.

Modelling conventions:
* `millis()` values and `unsigned long` arithmetic are `Nat` reduced mod `2^32`
  where the code performs unsigned subtraction.
* `float` sensor values are modelled as `ℚ`; a DHT read that returns NaN is
  modelled as `Option.none` (the only NaN source the code tests for).
* External collaborators (WiFi, PubSubClient, ArduinoJson) are inputs: the
  outcome of each `mqttClient.connect` call is a `Bool`, the result of
  `deserializeJson` on an inbound payload is a `Payload`, and side effects
  (subscribe, publish, `digitalWrite`, serial logs, `delay`) are recorded as
  `Event`s in a trace.
* A `none` result of a modelled routine marks a point where the firmware does
  not return normally: the unbounded reconnect loop still spinning after the
  modelled attempt outcomes are exhausted, or undefined behaviour
  (`strcmp(NULL, ...)` in `mqttCallback`).
-/

namespace NeuroHome

/-- Device identity compiled into the firmware (`DEVICE_ID`, line 12). -/
def DEVICE_ID : String := "neurohome-esp32-001"

/-- Sampling interval in milliseconds (`SENSOR_INTERVAL`, line 30). -/
def SENSOR_INTERVAL : Nat := 5000

/-- Fixed reconnect backoff in milliseconds (`delay(5000)`, line 111). -/
def RETRY_DELAY : Nat := 5000

/-- Modulus of `unsigned long` on the ESP32 (32 bits). -/
def M32 : Nat := 4294967296

/-- Wrapping 32-bit subtraction `a - b`, as C unsigned arithmetic computes it
on line 66. -/
def sub32 (a b : Nat) : Nat := (a % M32 + M32 - b % M32) % M32

/-- Nested `data` object of the telemetry payload (lines 152–154). -/
structure TelemetryData where
  sensorType : String
  value : ℚ
  unit : String
deriving DecidableEq, Repr

/-- Telemetry payload built by `publishSensorData` (lines 148–154): a
top-level JSON object with a nested `data` object. -/
structure TelemetryEnvelope where
  deviceId : String
  type : String
  priority : ℚ
  timestamp : Nat
  data : TelemetryData
deriving DecidableEq, Repr

/-- Observable side effects of the firmware, recorded in traces. A `publish`
event also records the broker-client connection flag at the moment
`mqttClient.publish` is called. -/
inductive Event where
  | connectAttempt (ok : Bool)
  | delayMs (ms : Nat)
  | subscribe (topic : String)
  | publish (connectedAtCall : Bool) (topic : String) (payload : TelemetryEnvelope)
  | logParseFailure
  | ledWrite (high : Bool)
  | logUnknownCommand (c : String)
deriving DecidableEq, Repr

/-- Program state owned by the loop: the broker-client connection flag, the
`lastSensorRead` timestamp (line 29) and the LED output level (pin 2). -/
structure AgentState where
  connected : Bool
  lastSensorRead : Nat
  ledOn : Bool
deriving DecidableEq, Repr

/-- Result of `deserializeJson` on an inbound payload: either a parse error,
or a parsed document whose `command` field is present (`some`) or absent
(`none`, in which case ArduinoJson yields a null `const char*`). -/
inductive Payload where
  | malformed
  | parsed (command : Option String)
deriving DecidableEq, Repr

/-- Command topic subscribed on connect (`snprintf` on line 102). -/
def commandTopic : String := "device/" ++ DEVICE_ID ++ "/command"

/-- Body of the `while (!mqttClient.connected())` loop of `reconnectMQTT`
(lines 94–113), recursing over the outcomes of successive
`mqttClient.connect` calls: on success, subscribe to the command topic and
stop; on failure, delay `RETRY_DELAY` ms and retry. `none` models the loop
still spinning when the modelled attempt outcomes run out. -/
def reconnectLoop (s : AgentState) : List Bool → Option (AgentState × List Event)
  | [] => none
  | ok :: rest =>
    if ok then
      some ({ s with connected := true },
            [Event.connectAttempt true, Event.subscribe commandTopic])
    else
      match reconnectLoop s rest with
      | none => none
      | some (s', evs) =>
          some (s', Event.connectAttempt false :: Event.delayMs RETRY_DELAY :: evs)

/-- `reconnectMQTT` (lines 93–114): does nothing if already connected,
otherwise runs the retry loop. -/
def reconnectMQTT (s : AgentState) (attempts : List Bool) :
    Option (AgentState × List Event) :=
  if s.connected then some (s, []) else reconnectLoop s attempts

/-- Command-handling tail of `mqttCallback` (lines 180–191): `strcmp` the
decoded `command` string against `"led_on"` and `"led_off"`, driving the LED
pin, else log the unknown command. Returns the new LED level and the emitted
event. -/
def dispatchCommand (led : Bool) (command : String) : Bool × Event :=
  if command = "led_on" then (true, Event.ledWrite true)
  else if command = "led_off" then (false, Event.ledWrite false)
  else (led, Event.logUnknownCommand command)

/-- `mqttCallback` (lines 165–191): deserialize the payload; on parse error
log and return; otherwise read `doc["command"]` and dispatch. When the
`command` field is absent, ArduinoJson yields a null string and line 182
calls `strcmp(NULL, "led_on")`: undefined behaviour, modelled as `none`. -/
def mqttCallback (s : AgentState) : Payload → Option (AgentState × List Event)
  | Payload.malformed => some (s, [Event.logParseFailure])
  | Payload.parsed none => none
  | Payload.parsed (some c) =>
      let r := dispatchCommand s.ledOn c
      some ({ s with ledOn := r.1 }, [r.2])

/-- `mqttClient.loop()` (line 62): deliver each inbound message pending this
iteration to `mqttCallback`, in order. -/
def pumpInbound (s : AgentState) : List Payload → Option (AgentState × List Event)
  | [] => some (s, [])
  | p :: rest =>
    match mqttCallback s p with
    | none => none
    | some (s', evs) =>
      match pumpInbound s' rest with
      | none => none
      | some (s'', evs') => some (s'', evs ++ evs')

/-- Light-level normalization on line 135: `(lightLevel / 4095.0) * 100.0`. -/
def lightPercent (raw : Nat) : ℚ := ((raw : ℚ) / 4095) * 100

/-- Sensor capability reads performed by one `readSensors` call:
`dht.readTemperature()` / `dht.readHumidity()` (`none` models NaN),
`digitalRead(PIR_PIN)` and `analogRead(LIGHT_SENSOR_PIN)`. -/
structure SensorInputs where
  temperature : Option ℚ
  humidity : Option ℚ
  motion : Bool
  lightRaw : Nat
deriving DecidableEq, Repr

/-- `publishSensorData` (lines 139–163): build the topic
`device/{id}/sensor/{type}` and the JSON envelope, then call
`mqttClient.publish`. `connected` is the broker-client connection flag at the
moment of that call; `now` is `millis()`. -/
def publishSensorData (connected : Bool) (now : Nat) (sensorType : String)
    (value : ℚ) (unit : String) : Event :=
  Event.publish connected ("device/" ++ DEVICE_ID ++ "/sensor/" ++ sensorType)
    { deviceId := DEVICE_ID
      type := "sensor_data"
      priority := 5
      timestamp := now
      data := { sensorType := sensorType, value := value, unit := unit } }

/-- `readSensors` (lines 116–137): publish temperature and humidity only when
the DHT read is not NaN; always publish motion (as 0/1) and the normalized
light level. -/
def readSensors (connected : Bool) (now : Nat) (inp : SensorInputs) : List Event :=
  (match inp.temperature with
    | some t => [publishSensorData connected now "temperature" t "C"]
    | none => [])
  ++ (match inp.humidity with
    | some h => [publishSensorData connected now "humidity" h "%"]
    | none => [])
  ++ [publishSensorData connected now "motion" (if inp.motion then 1 else 0) "bool"]
  ++ [publishSensorData connected now "light" (lightPercent inp.lightRaw) "%"]

/-- Fire condition of the sampler (line 66):
`now - lastSensorRead >= SENSOR_INTERVAL` in 32-bit unsigned arithmetic. -/
def samplerFires (now last : Nat) : Bool :=
  decide (SENSOR_INTERVAL ≤ sub32 now last)

/-- Lines 65–69 in isolation: the sampler's decision and its update of
`lastSensorRead`. Returns the new `lastSensorRead` and whether it fired. -/
def samplerStep (last now : Nat) : Nat × Bool :=
  if samplerFires now last then (now, true) else (last, false)

/-- Times at which the sampler fires when the loop observes `millis()` at the
successive values of `ts`, starting from `lastSensorRead = last`. -/
def fireTimes (last : Nat) : List Nat → List Nat
  | [] => []
  | t :: ts =>
    if samplerFires t last then t :: fireTimes t ts else fireTimes last ts

/-- External inputs consumed by one `loop` iteration. -/
structure LoopInputs where
  connectAttempts : List Bool
  inbound : List Payload
  now : Nat
  sensors : SensorInputs
deriving Repr

/-- One iteration of `loop` (lines 58–70): reconnect if not connected, pump
inbound messages, then sample if the interval has elapsed. -/
def loopStep (s : AgentState) (inp : LoopInputs) : Option (AgentState × List Event) :=
  match (if s.connected then some (s, []) else reconnectMQTT s inp.connectAttempts) with
  | none => none
  | some (s1, evs1) =>
    match pumpInbound s1 inp.inbound with
    | none => none
    | some (s2, evs2) =>
      if samplerFires inp.now s2.lastSensorRead then
        some ({ s2 with lastSensorRead := inp.now },
              evs1 ++ evs2 ++ readSensors s2.connected inp.now inp.sensors)
      else
        some (s2, evs1 ++ evs2)

/-! ### Observation helpers used by theorem statements -/

/-- True for non-publish events; for a publish event, the broker-client
connection flag recorded at the moment of the `mqttClient.publish` call. -/
def publishedWhileConnected : Event → Bool
  | Event.publish c _ _ => c
  | _ => true

/-- Trace of one failing connect attempt followed by the fixed backoff delay,
repeated `n` times. -/
def failEvents : Nat → List Event
  | 0 => []
  | n + 1 => Event.connectAttempt false :: Event.delayMs RETRY_DELAY :: failEvents n

/-- Whether an event is a publish on this channel's topic. -/
def onChannel (ch : String) : Event → Bool
  | Event.publish _ topic _ =>
      decide (topic = "device/" ++ DEVICE_ID ++ "/sensor/" ++ ch)
  | _ => false

/-!  ## C1 -/

/-- C1: the claim says a parsed payload lacking the `command` field yields a
DecodeError with no dispatch and no crash. The code instead reaches
`strcmp(NULL, "led_on")` on line 182 (undefined behaviour, modelled as
`none`): evaluating `mqttCallback` at the failing input, a well-formed JSON
object with no `command` field, exhibits the crash path. -/
theorem mqttCallback_missing_command_crashes :
    mqttCallback { connected := true, lastSensorRead := 0, ledOn := false }
      (Payload.parsed none) = none := rfl

/-!  ## C9 -/

/-- C9: an inbound payload that fails JSON parsing is logged and discarded by
`mqttCallback` (early return on line 176): no crash, no command dispatched,
and the program state (actuator, connection, sampler timestamp) is unchanged;
pumping such a message through `mqttClient.loop()` behaves the same. -/
theorem malformed_payload_discarded (s : AgentState) :
    mqttCallback s Payload.malformed = some (s, [Event.logParseFailure])
  ∧ pumpInbound s [Payload.malformed] = some (s, [Event.logParseFailure]) :=
  ⟨rfl, rfl⟩

/-!  ## C6 -/

/-- C6 counterexample: the claim says raw 2048 maps to approximately 50.03%,
but `(2048 / 4095.0) * 100.0` is `40960/819 ≈ 50.0122`, which is not within
`0.01` of `50.03`. -/
theorem lightPercent_2048_not_near_50_03 :
    ¬ |lightPercent 2048 - 5003 / 100| ≤ 1 / 100 := by
  norm_num [lightPercent, abs_le]

/-- C6 (amended): the published light value is the linear scaling
`(raw / 4095) * 100`: raw 0 maps to 0.0%, raw 4095 maps to 100.0%, and raw
2048 maps to `40960/819 ≈ 50.01%` (within 0.01 of 50.01). -/
theorem lightPercent_mapping :
    lightPercent 0 = 0
  ∧ lightPercent 4095 = 100
  ∧ lightPercent 2048 = 40960 / 819
  ∧ |lightPercent 2048 - 5001 / 100| < 1 / 100 := by
  refine ⟨by norm_num [lightPercent], by norm_num [lightPercent],
    by norm_num [lightPercent], by norm_num [lightPercent, abs_lt]⟩

/-!  ## C7 -/

/-- C7: dispatching `"led_on"` drives the LED high, `"led_off"` drives it
low, and any other command string leaves the LED unchanged and is reported as
unknown, with no actuator write. -/
theorem dispatchCommand_cases (led : Bool) (c : String)
    (h1 : c ≠ "led_on") (h2 : c ≠ "led_off") :
    dispatchCommand led "led_on" = (true, Event.ledWrite true)
  ∧ dispatchCommand led "led_off" = (false, Event.ledWrite false)
  ∧ dispatchCommand led c = (led, Event.logUnknownCommand c) := by
  refine ⟨rfl, rfl, ?_⟩
  simp [dispatchCommand, h1, h2]

/-- C7 witness: the theorem instantiated at the LED on, command `"blink"`. -/
theorem dispatchCommand_cases_witness :
    dispatchCommand true "led_on" = (true, Event.ledWrite true)
  ∧ dispatchCommand true "led_off" = (false, Event.ledWrite false)
  ∧ dispatchCommand true "blink" = (true, Event.logUnknownCommand "blink") :=
  dispatchCommand_cases true "blink" (by decide) (by decide)

/-!  ## C10 -/

/-- C10: the fire condition on line 66 is computed with 32-bit wrapping
subtraction, so for any `lastSensorRead` value and any true elapsed time
`e < 2^32`, the sampler fires at clock value `(last + e) mod 2^32` exactly
when `e` has reached the interval — the schedule survives millisecond-clock
wraparound instead of stalling or firing on every iteration. -/
theorem samplerFires_wraparound (last e : Nat) (hl : last < M32) (he : e < M32) :
    samplerFires ((last + e) % M32) last = true ↔ SENSOR_INTERVAL ≤ e := by
  rw [samplerFires, decide_eq_true_eq]
  unfold sub32 SENSOR_INTERVAL M32 at *
  omega

/-- C10 witness: the clock wraps from `2^32 - 5000` past zero; the sampler
fires exactly when 5000 ms have elapsed. -/
theorem samplerFires_wraparound_witness :
    (4294962296 < M32 ∧ 5000 < M32)
  ∧ (samplerFires ((4294962296 + 5000) % M32) 4294962296 = true ↔
      SENSOR_INTERVAL ≤ 5000) :=
  ⟨⟨by decide, by decide⟩,
    samplerFires_wraparound 4294962296 5000 (by decide) (by decide)⟩

/-!  ## C3 -/

/-- Whether an event is a subscribe call. -/
def isSubscribe : Event → Bool
  | Event.subscribe _ => true
  | _ => false

theorem reconnectLoop_all_fail (s : AgentState) (n : Nat) :
    reconnectLoop s (List.replicate n false) = none := by
  induction n with
  | zero => rfl
  | succ n ih => simp [List.replicate_succ, reconnectLoop, ih]

theorem reconnectLoop_fail_then_succeed (s : AgentState) (n : Nat) :
    reconnectLoop s (List.replicate n false ++ [true]) =
      some ({ s with connected := true },
        failEvents n ++ [Event.connectAttempt true, Event.subscribe commandTopic]) := by
  induction n with
  | zero => rfl
  | succ n ih => simp [List.replicate_succ, reconnectLoop, ih, failEvents]

theorem countP_isSubscribe_failEvents (n : Nat) :
    (failEvents n).countP isSubscribe = 0 := by
  induction n with
  | zero => rfl
  | succ n ih => simp [failEvents, List.countP_cons, ih, isSubscribe]

/-- C3: starting from a disconnected state, `reconnectMQTT` never returns
while every connect attempt fails (no maximum retry count), each failing
attempt leaves the state disconnected and is followed by the fixed 5000 ms
backoff delay before the next attempt; once an attempt succeeds the state
becomes connected and the whole connection performs exactly one subscribe
call, on topic `device/{deviceId}/command`. -/
theorem reconnectMQTT_spec (s : AgentState) (n : Nat) (h : s.connected = false) :
    reconnectMQTT s (List.replicate n false) = none
  ∧ reconnectMQTT s (List.replicate n false ++ [true]) =
      some ({ s with connected := true },
        failEvents n ++ [Event.connectAttempt true, Event.subscribe commandTopic])
  ∧ (failEvents n ++
      [Event.connectAttempt true, Event.subscribe commandTopic]).countP isSubscribe = 1 := by
  refine ⟨?_, ?_, ?_⟩
  · simp [reconnectMQTT, h, reconnectLoop_all_fail]
  · simp [reconnectMQTT, h, reconnectLoop_fail_then_succeed]
  · simp [List.countP_append, countP_isSubscribe_failEvents, List.countP_cons, isSubscribe]

/-- C3 witness: two failing attempts followed by a success, from a fresh
disconnected state. -/
theorem reconnectMQTT_spec_witness :
    reconnectMQTT ⟨false, 0, false⟩ (List.replicate 2 false) = none
  ∧ reconnectMQTT ⟨false, 0, false⟩ (List.replicate 2 false ++ [true]) =
      some (⟨true, 0, false⟩,
        failEvents 2 ++ [Event.connectAttempt true, Event.subscribe commandTopic])
  ∧ (failEvents 2 ++
      [Event.connectAttempt true, Event.subscribe commandTopic]).countP isSubscribe = 1 :=
  reconnectMQTT_spec ⟨false, 0, false⟩ 2 rfl

/-!  ## C4 -/

/-- C4 counterexample: with `lastSensorRead = 0` and the loop observing
`millis()` at 5000 and then 10002, the sampler fires at both instants, and
the two successive fires are 5002 ms apart — not exactly `SENSOR_INTERVAL`
as the claim states. -/
theorem sampler_exact_spacing_counterexample :
    fireTimes 0 [5000, 10002] = [5000, 10002]
  ∧ 10002 - 5000 ≠ SENSOR_INTERVAL := by decide

theorem fireTimes_chain (last : Nat) (ts : List Nat) :
    List.Chain' (fun a b => SENSOR_INTERVAL ≤ sub32 b a) (last :: fireTimes last ts) := by
  induction ts generalizing last with
  | nil => simp [fireTimes]
  | cons t ts ih =>
    by_cases h : samplerFires t last = true
    · have h5 : SENSOR_INTERVAL ≤ sub32 t last := by
        rw [samplerFires, decide_eq_true_eq] at h
        exact h
      rw [fireTimes, if_pos h]
      exact List.chain'_cons.2 ⟨h5, ih t⟩
    · rw [fireTimes, if_neg h]
      exact ih last

/-- C4 (amended): the sampler fires iff `(now - lastFireMillis) mod 2^32`
has reached `SENSOR_INTERVAL`; on a fire `lastFireMillis` becomes `now`
unconditionally (independent of the sensor read outcomes), a non-firing loop
iteration leaves `lastFireMillis` unchanged and publishes no readings, and
successive fires are therefore spaced at least — not exactly —
`SENSOR_INTERVAL` ms apart in wrapping 32-bit time. -/
theorem sampler_fire_discipline (last now : Nat) (led : Bool) (sens : SensorInputs)
    (ts : List Nat) :
    ((samplerStep last now).2 = true ↔ SENSOR_INTERVAL ≤ sub32 now last)
  ∧ (samplerStep last now).1 = (if (samplerStep last now).2 = true then now else last)
  ∧ loopStep ⟨true, last, led⟩ ⟨[], [], now, sens⟩ =
      some (⟨true, (samplerStep last now).1, led⟩,
        if (samplerStep last now).2 = true then readSensors true now sens else [])
  ∧ List.Chain' (fun a b => SENSOR_INTERVAL ≤ sub32 b a) (last :: fireTimes last ts) := by
  refine ⟨?_, ?_, ?_, fireTimes_chain last ts⟩
  · by_cases h : samplerFires now last = true
    · rw [samplerFires, decide_eq_true_eq] at h
      simp [samplerStep, samplerFires, h]
    · rw [samplerFires, decide_eq_true_eq] at h
      simp [samplerStep, samplerFires, h]
  · by_cases h : samplerFires now last = true <;> simp [samplerStep, h]
  · by_cases h : samplerFires now last = true <;>
      simp [loopStep, pumpInbound, samplerStep, reconnectMQTT, h]

/-!  ## C5 -/

/-- C5: on a sampling tick, a NaN temperature or humidity read yields zero
envelopes on that channel while every other channel still produces its
envelope; the motion and light channels always produce exactly one reading
per tick. -/
theorem readSensors_channel_counts (c : Bool) (now : Nat) (inp : SensorInputs) :
    (readSensors c now inp).countP (onChannel "temperature")
        = (if inp.temperature.isSome then 1 else 0)
  ∧ (readSensors c now inp).countP (onChannel "humidity")
        = (if inp.humidity.isSome then 1 else 0)
  ∧ (readSensors c now inp).countP (onChannel "motion") = 1
  ∧ (readSensors c now inp).countP (onChannel "light") = 1 := by
  obtain ⟨t, h, m, r⟩ := inp
  cases t <;> cases h <;>
    simp [readSensors, publishSensorData, onChannel, List.countP_cons,
      List.countP_append, DEVICE_ID]

/-!  ## C8 -/

/-- Unit string the firmware pairs with each sensor channel
(lines 120, 126, 131, 136). -/
def unitFor : String → Option String
  | "temperature" => some "C"
  | "humidity" => some "%"
  | "motion" => some "bool"
  | "light" => some "%"
  | _ => none

/-- Well-formedness of an event as a telemetry message at time `now`: a
publish must go to topic `device/{deviceId}/sensor/{sensorType}` for one of
the four recognized channels with the matching unit string, its envelope
must carry `deviceId`, `type = "sensor_data"`, `priority = 5`,
`timestamp = now` and the nested `data` object, and a motion value must be
numeric 0 or 1. Non-publish events are vacuously fine. -/
def telemetryOk (now : Nat) : Event → Bool
  | Event.publish _ topic env =>
      decide (unitFor env.data.sensorType = some env.data.unit)
        && decide (topic = "device/" ++ DEVICE_ID ++ "/sensor/" ++ env.data.sensorType)
        && decide (env.deviceId = DEVICE_ID)
        && decide (env.type = "sensor_data")
        && decide (env.priority = 5)
        && decide (env.timestamp = now)
        && (decide (env.data.sensorType ≠ "motion")
            || decide (env.data.value = 0) || decide (env.data.value = 1))
  | _ => true

/-- C8: every telemetry message published on a sampling tick goes to topic
`device/{deviceId}/sensor/{sensorType}` with `sensorType` one of
temperature/humidity/motion/light, and its payload carries `deviceId`,
`type = "sensor_data"`, `priority = 5`, the tick's `millis()` timestamp and
a nested `data` object holding `sensorType`, `value` and `unit`, with unit
strings "C", "%", "bool", "%" respectively and motion carried as 0/1. -/
theorem readSensors_envelope_shape (c : Bool) (now : Nat) (inp : SensorInputs) :
    (readSensors c now inp).all (telemetryOk now) = true := by
  obtain ⟨t, h, m, r⟩ := inp
  cases t <;> cases h <;> cases m <;>
    norm_num [readSensors, publishSensorData, telemetryOk, unitFor, DEVICE_ID]
  all_goals repeat' apply And.intro
  all_goals (left ; left ; decide)

/-!  ## C2 -/

theorem dispatchCommand_event_not_publish (led : Bool) (c : String) :
    publishedWhileConnected (dispatchCommand led c).2 = true := by
  simp only [dispatchCommand]
  split
  · rfl
  · split <;> rfl

theorem mqttCallback_preserves (s : AgentState) (p : Payload) (s' : AgentState)
    (evs : List Event) (h : mqttCallback s p = some (s', evs)) :
    s'.connected = s.connected ∧ evs.all publishedWhileConnected = true := by
  cases p with
  | malformed =>
    simp only [mqttCallback, Option.some.injEq, Prod.mk.injEq] at h
    obtain ⟨rfl, rfl⟩ := h
    exact ⟨rfl, rfl⟩
  | parsed c =>
    cases c with
    | none => simp [mqttCallback] at h
    | some cmd =>
      simp only [mqttCallback, Option.some.injEq, Prod.mk.injEq] at h
      obtain ⟨rfl, rfl⟩ := h
      refine ⟨rfl, ?_⟩
      simp [List.all_cons, dispatchCommand_event_not_publish]

theorem pumpInbound_preserves (s : AgentState) (ps : List Payload) (s' : AgentState)
    (evs : List Event) (h : pumpInbound s ps = some (s', evs)) :
    s'.connected = s.connected ∧ evs.all publishedWhileConnected = true := by
  induction ps generalizing s evs with
  | nil =>
    simp only [pumpInbound, Option.some.injEq, Prod.mk.injEq] at h
    obtain ⟨rfl, rfl⟩ := h
    exact ⟨rfl, rfl⟩
  | cons p rest ih =>
    rw [pumpInbound] at h
    split at h
    · exact absurd h (by simp)
    · rename_i s1 evs1 heq1
      split at h
      · exact absurd h (by simp)
      · rename_i s2 evs2 heq2
        simp only [Option.some.injEq, Prod.mk.injEq] at h
        obtain ⟨rfl, rfl⟩ := h
        obtain ⟨hc1, ha1⟩ := mqttCallback_preserves _ _ _ _ heq1
        obtain ⟨hc2, ha2⟩ := ih _ _ heq2
        exact ⟨hc2.trans hc1, by simp [List.all_append, ha1, ha2]⟩

theorem reconnectLoop_result (s : AgentState) (a : List Bool) (s' : AgentState)
    (evs : List Event) (h : reconnectLoop s a = some (s', evs)) :
    s'.connected = true ∧ evs.all publishedWhileConnected = true := by
  induction a generalizing evs with
  | nil => simp [reconnectLoop] at h
  | cons ok rest ih =>
    rw [reconnectLoop] at h
    split at h
    · simp only [Option.some.injEq, Prod.mk.injEq] at h
      obtain ⟨rfl, rfl⟩ := h
      exact ⟨rfl, rfl⟩
    · split at h
      · exact absurd h (by simp)
      · rename_i s1 evs1 heq
        simp only [Option.some.injEq, Prod.mk.injEq] at h
        obtain ⟨rfl, rfl⟩ := h
        obtain ⟨h1, h2⟩ := ih _ heq
        exact ⟨h1, by simp [List.all_cons, h2, publishedWhileConnected]⟩

theorem reconnectMQTT_result (s : AgentState) (a : List Bool) (s' : AgentState)
    (evs : List Event) (h : reconnectMQTT s a = some (s', evs)) :
    (s.connected = true → s'.connected = true)
  ∧ (s.connected = false → s'.connected = true)
  ∧ evs.all publishedWhileConnected = true := by
  rw [reconnectMQTT] at h
  split at h
  · rename_i hc
    simp only [Option.some.injEq, Prod.mk.injEq] at h
    obtain ⟨rfl, rfl⟩ := h
    exact ⟨fun hx => hx, fun _ => hc, rfl⟩
  · obtain ⟨h1, h2⟩ := reconnectLoop_result _ _ _ _ h
    exact ⟨fun _ => h1, fun _ => h1, h2⟩

theorem readSensors_all_connected (now : Nat) (inp : SensorInputs) :
    (readSensors true now inp).all publishedWhileConnected = true := by
  obtain ⟨t, h, m, r⟩ := inp
  cases t <;> cases h <;>
    simp [readSensors, publishSensorData, publishedWhileConnected]

/-- C2: whenever a `loop` iteration completes, every telemetry publish it
attempted was made with the broker-client connection flag `true`: the
iteration establishes a connected client (reconnecting if necessary) before
any sensor reading is published, and it ends connected. -/
theorem loopStep_no_publish_while_disconnected (s s' : AgentState) (inp : LoopInputs)
    (evs : List Event) (h : loopStep s inp = some (s', evs)) :
    evs.all publishedWhileConnected = true ∧ s'.connected = true := by
  rw [loopStep] at h
  split at h
  · exact absurd h (by simp)
  · rename_i s1 evs1 heq1
    have hs1 : s1.connected = true ∧ evs1.all publishedWhileConnected = true := by
      rcases hc : s.connected with hfalse | htrue
      · rw [if_neg (by simp [hc])] at heq1
        obtain ⟨_, h2, h3⟩ := reconnectMQTT_result _ _ _ _ heq1
        exact ⟨h2 hc, h3⟩
      · rw [if_pos (by simp [hc])] at heq1
        simp only [Option.some.injEq, Prod.mk.injEq] at heq1
        obtain ⟨rfl, rfl⟩ := heq1
        exact ⟨hc, rfl⟩
    split at h
    · exact absurd h (by simp)
    · rename_i s2 evs2 heq2
      obtain ⟨hc2, ha2⟩ := pumpInbound_preserves _ _ _ _ heq2
      have hs2 : s2.connected = true := hc2.trans hs1.1
      split at h <;>
        (simp only [Option.some.injEq, Prod.mk.injEq] at h
         obtain ⟨rfl, rfl⟩ := h)
      · refine ⟨?_, hs2⟩
        rw [hs2]
        simp [List.all_append, hs1.2, ha2, readSensors_all_connected]
      · exact ⟨by simp [List.all_append, hs1.2, ha2], hs2⟩

/-- Concrete starting state for the C2 witness run: disconnected, fresh. -/
def wStart : AgentState := { connected := false, lastSensorRead := 0, ledOn := false }

/-- Concrete loop inputs for the C2 witness run: one succeeding connect
attempt, one malformed inbound message, one `led_on` command, a sampling
tick at 6000 ms. -/
def wIn : LoopInputs :=
  { connectAttempts := [true]
    inbound := [Payload.malformed, Payload.parsed (some "led_on")]
    now := 6000
    sensors := { temperature := some 21, humidity := none, motion := true, lightRaw := 4095 } }

/-- Trace produced by the C2 witness run. -/
def wEvs : List Event :=
  [Event.connectAttempt true, Event.subscribe commandTopic, Event.logParseFailure,
   Event.ledWrite true]
  ++ readSensors true 6000
      { temperature := some 21, humidity := none, motion := true, lightRaw := 4095 }

/-- C2 witness: the theorem instantiated on the concrete run. -/
theorem loopStep_no_publish_while_disconnected_witness :
    wEvs.all publishedWhileConnected = true
  ∧ (⟨true, 6000, true⟩ : AgentState).connected = true :=
  loopStep_no_publish_while_disconnected wStart ⟨true, 6000, true⟩ wIn wEvs rfl

end NeuroHome
